import Mathlib

/-!
Verification of md2pdf (Markdown to PDF converter with GitHub styling).

This file gives a shallow embedding of the core of `md2pdf.py`:
the GitHub-alert preprocessor (`preprocess_github_alerts` / `replace_alert`),
theme resolution (`ThemeConfig`), image inlining (`load_image_as_base64`),
document assembly (`create_html_document`) and the temporary-file lifecycle
of `main`.  Text is modelled as `List Char` / `String`; the regular
expression of the preprocessor is modelled operationally by a scanner that
reproduces the backtracking behaviour of Python's `re` engine on the
pattern used in the source.  Theorems at the end settle the specification
claims about these definitions.
-/

/-- Python's whitespace class: the exact set of code points matched by the
regex class `\s` on `str` inputs, which coincides with the set accepted by
`str.isspace` (used by `str.strip`). -/
def pySpace (c : Char) : Bool :=
  [9, 10, 11, 12, 13, 28, 29, 30, 31, 32, 133, 160, 5760,
   8192, 8193, 8194, 8195, 8196, 8197, 8198, 8199, 8200, 8201, 8202,
   8232, 8233, 8239, 8287, 12288].contains c.toNat

/-- Python `str.split("\n")`: split at every newline, keeping empty pieces
(`"".split("\n") = [""]`, and a trailing newline yields a trailing `""`). -/
def splitOnNl : List Char → List (List Char)
  | [] => [[]]
  | '\n' :: cs => [] :: splitOnNl cs
  | c :: cs =>
    match splitOnNl cs with
    | l :: ls => (c :: l) :: ls
    | [] => [[c]]

/-- The per-line cleanup `re.sub(r"^>\s?", "", line)` of `replace_alert`:
remove one leading quote marker and at most one whitespace character
immediately after it. -/
def strip_quote : List Char → List Char
  | '>' :: c :: cs => if pySpace c then cs else c :: cs
  | ['>'] => []
  | cs => cs

/-- Python `str.strip()`: drop whitespace characters from both ends. -/
def pyStrip (cs : List Char) : List Char :=
  ((cs.dropWhile pySpace).reverse.dropWhile pySpace).reverse

/-- Case-insensitive match of one lowercase ASCII pattern letter, as Python's
`re` with `re.IGNORECASE` performs it.  Besides the two ASCII cases, the
letter `i` also matches U+0130 and U+0131 (the `re` module's extra case
equivalences); an exhaustive scan of all code points shows the letters of
the five alert kind words have no other equivalences. -/
def letterMatches (pat c : Char) : Bool :=
  c == pat || c.toNat + 32 == pat.toNat ||
    (pat == 'i' && (c.toNat == 304 || c.toNat == 305))

/-- Match a kind word (given as lowercase pattern letters) case-insensitively
against the input, returning the matched characters and the rest. -/
def matchWord : List Char → List Char → Option (List Char × List Char)
  | [], cs => some ([], cs)
  | _ :: _, [] => none
  | p :: ps, c :: cs =>
    if letterMatches p c then
      match matchWord ps cs with
      | some pr => some (c :: pr.1, pr.2)
      | none => none
    else none

/-- The alternatives of the group `(NOTE|TIP|IMPORTANT|WARNING|CAUTION)`,
in the order the regex tries them. -/
def kindAlternatives : List (List Char) :=
  ["note".data, "tip".data, "important".data, "warning".data, "caution".data]

/-- Try the kind alternatives in order; each must be followed by the literal
`]`.  Since the five words start with pairwise distinct letters (and the
extra case equivalences only concern `i`), at most one alternative can match
at a given position, so trying them in order reproduces the regex engine's
backtracking over the alternation. -/
def tryKindAlt : List (List Char) → List Char → Option (List Char × List Char)
  | [], _ => none
  | word :: ws, cs =>
    match matchWord word cs with
    | some pr =>
      match pr.2 with
      | ']' :: rest => some (pr.1, rest)
      | _ => tryKindAlt ws cs
    | none => tryKindAlt ws cs

/-- Match `(NOTE|TIP|IMPORTANT|WARNING|CAUTION)\]` case-insensitively:
returns the raw matched kind characters and the input after the `]`. -/
def tryKindWord (cs : List Char) : Option (List Char × List Char) :=
  tryKindAlt kindAlternatives cs

/-- Worker for the body group `(?:>.*(?:\n|$))*` of the alert pattern.
The flag records whether the scanner is inside a body line (`true`) or at a
line start (`false`).  At a line start a `>` begins a further body line and
anything else stops the group; inside a line every character up to and
including the next newline is consumed (`.*` followed by `\n`, or end of
input for the `$` branch).  Returns the consumed characters and the rest. -/
def takeBodyAux : Bool → List Char → List Char × List Char
  | _, [] => ([], [])
  | false, c :: cs =>
    if c == '>' then
      match takeBodyAux true cs with
      | (b, r) => (c :: b, r)
    else ([], c :: cs)
  | true, c :: cs =>
    match takeBodyAux (!(c == '\n')) cs with
    | (b, r) => (c :: b, r)

/-- The body group `(?:>.*(?:\n|$))*`: the maximal run of contiguous lines
starting with `>` (each consumed through its newline; the final line may be
unterminated at end of input). -/
def takeBody (cs : List Char) : List Char × List Char :=
  takeBodyAux false cs

/-- The ALERT_ICONS dictionary of the source: SVG icon markup for each alert kind. -/
def ALERT_ICONS : List (String × String) := [
  ("note", "<svg class=\"octicon\" viewBox=\"0 0 16 16\" width=\"16\" height=\"16\"><path d=\"M0 8a8 8 0 1 1 16 0A8 8 0 0 1 0 8Zm8-6.5a6.5 6.5 0 1 0 0 13 6.5 6.5 0 0 0 0-13ZM6.5 7.75A.75.75 0 0 1 7.25 7h1a.75.75 0 0 1 .75.75v2.75h.25a.75.75 0 0 1 0 1.5h-2a.75.75 0 0 1 0-1.5h.25v-2h-.25a.75.75 0 0 1-.75-.75ZM8 6a1 1 0 1 1 0-2 1 1 0 0 1 0 2Z\"></path></svg>"),
  ("tip", "<svg class=\"octicon\" viewBox=\"0 0 16 16\" width=\"16\" height=\"16\"><path d=\"M8 1.5c-2.363 0-4 1.69-4 3.75 0 .984.424 1.625.984 2.304l.214.253c.223.264.47.556.673.848.284.411.537.896.621 1.49a.75.75 0 0 1-1.484.211c-.04-.282-.163-.547-.37-.847a8.456 8.456 0 0 0-.542-.68c-.084-.1-.173-.205-.268-.32C3.201 7.75 2.5 6.766 2.5 5.25 2.5 2.31 4.863 0 8 0s5.5 2.31 5.5 5.25c0 1.516-.701 2.5-1.328 3.259-.095.115-.184.22-.268.319-.207.245-.383.453-.541.681-.208.3-.33.565-.37.847a.751.751 0 0 1-1.485-.212c.084-.593.337-1.078.621-1.489.203-.292.45-.584.673-.848.075-.088.147-.173.213-.253.561-.679.985-1.32.985-2.304 0-2.06-1.637-3.75-4-3.75ZM5.75 12h4.5a.75.75 0 0 1 0 1.5h-4.5a.75.75 0 0 1 0-1.5ZM6 15.25a.75.75 0 0 1 .75-.75h2.5a.75.75 0 0 1 0 1.5h-2.5a.75.75 0 0 1-.75-.75Z\"></path></svg>"),
  ("important", "<svg class=\"octicon\" viewBox=\"0 0 16 16\" width=\"16\" height=\"16\"><path d=\"M0 1.75C0 .784.784 0 1.75 0h12.5C15.216 0 16 .784 16 1.75v9.5A1.75 1.75 0 0 1 14.25 13H8.06l-2.573 2.573A1.458 1.458 0 0 1 3 14.543V13H1.75A1.75 1.75 0 0 1 0 11.25Zm1.75-.25a.25.25 0 0 0-.25.25v9.5c0 .138.112.25.25.25h2a.75.75 0 0 1 .75.75v2.19l2.72-2.72a.749.749 0 0 1 .53-.22h6.5a.25.25 0 0 0 .25-.25v-9.5a.25.25 0 0 0-.25-.25Zm7 2.25v2.5a.75.75 0 0 1-1.5 0v-2.5a.75.75 0 0 1 1.5 0ZM9 9a1 1 0 1 1-2 0 1 1 0 0 1 2 0Z\"></path></svg>"),
  ("warning", "<svg class=\"octicon\" viewBox=\"0 0 16 16\" width=\"16\" height=\"16\"><path d=\"M6.457 1.047c.659-1.234 2.427-1.234 3.086 0l6.082 11.378A1.75 1.75 0 0 1 14.082 15H1.918a1.75 1.75 0 0 1-1.543-2.575Zm1.763.707a.25.25 0 0 0-.44 0L1.698 13.132a.25.25 0 0 0 .22.368h12.164a.25.25 0 0 0 .22-.368Zm.53 3.996v2.5a.75.75 0 0 1-1.5 0v-2.5a.75.75 0 0 1 1.5 0ZM9 11a1 1 0 1 1-2 0 1 1 0 0 1 2 0Z\"></path></svg>"),
  ("caution", "<svg class=\"octicon\" viewBox=\"0 0 16 16\" width=\"16\" height=\"16\"><path d=\"M4.47.22A.749.749 0 0 1 5 0h6c.199 0 .389.079.53.22l4.25 4.25c.141.14.22.331.22.53v6a.749.749 0 0 1-.22.53l-4.25 4.25A.749.749 0 0 1 11 16H5a.749.749 0 0 1-.53-.22L.22 11.53A.749.749 0 0 1 0 11V5c0-.199.079-.389.22-.53Zm.84 1.28L1.5 5.31v5.38l3.81 3.81h5.38l3.81-3.81V5.31L10.69 1.5ZM8 4a.75.75 0 0 1 .75.75v3.5a.75.75 0 0 1-1.5 0v-3.5A.75.75 0 0 1 8 4Zm0 8a1 1 0 1 1 0-2 1 1 0 0 1 0 2Z\"></path></svg>")
]

/-- The ALERT_TITLES dictionary of the source: display title for each alert kind. -/
def ALERT_TITLES : List (String × String) := [
  ("note", "Note"),
  ("tip", "Tip"),
  ("important", "Important"),
  ("warning", "Warning"),
  ("caution", "Caution")
]

/-- The HTML replacement block built by replace_alert in the source, given the lowercased alert type, icon markup, title text and cleaned content. -/
def alert_fragment (alert_type icon title content : String) : String :=
  "\n<div class=\"markdown-alert markdown-alert-"
    ++ alert_type
    ++ "\">\n<p class=\"markdown-alert-title\">"
    ++ icon
    ++ title
    ++ "</p>\n<p>"
    ++ content
    ++ "</p>\n</div>\n\n"

/-- Python `str.lower` restricted to the characters that can occur in a
matched kind word (ASCII letters of both cases plus U+0130 and U+0131):
ASCII uppercase maps down, U+0130 lowercases to the two code points
U+0069 U+0307, and everything else (including U+0131) is fixed. -/
def pyLowerChar (c : Char) : List Char :=
  if c.toNat == 304 then [Char.ofNat 105, Char.ofNat 775]
  else if 65 ≤ c.toNat ∧ c.toNat ≤ 90 then [Char.ofNat (c.toNat + 32)]
  else [c]

/-- Python `str.lower` on a matched kind word (`match.group(1).lower()`). -/
def pyLowerKind (raw : List Char) : List Char :=
  (raw.map pyLowerChar).flatten

/-- Titlecase of the first character, for the characters a lowercased kind
word can start with: ASCII lowercase maps up and U+0131 titlecases to `I`. -/
def pyTitleFirst (c : Char) : Char :=
  if c.toNat == 305 then 'I'
  else if 97 ≤ c.toNat ∧ c.toNat ≤ 122 then Char.ofNat (c.toNat - 32)
  else c

/-- Python `str.capitalize` on a lowercased kind word: titlecase the first
character and lowercase the rest (the rest is already lowercase here). -/
def pyCapitalize : List Char → List Char
  | [] => []
  | c :: cs => pyTitleFirst c :: (cs.map pyLowerChar).flatten

/-- Python `dict.get` on a string-keyed dictionary modelled as an
association list. -/
def lookupStr (d : List (String × String)) (k : String) : Option String :=
  (d.find? (fun p => p.1 == k)).map (fun p => p.2)

/-- The body cleanup of `replace_alert`: split the matched block on
newlines, strip one `>` and at most one following whitespace character from
each line, rejoin with newlines, and strip the result. -/
def clean_content (content_block : List Char) : List Char :=
  pyStrip (List.intercalate ['\n'] ((splitOnNl content_block).map strip_quote))

/-- The `replace_alert` callback of the source: lowercase the matched kind,
look up icon (default `""`) and title (default `capitalize`), clean the
body block, and build the replacement HTML fragment. -/
def replace_alert (raw content_block : List Char) : List Char :=
  let alert_type : String := ⟨pyLowerKind raw⟩
  let icon := (lookupStr ALERT_ICONS alert_type).getD ""
  let title := (lookupStr ALERT_TITLES alert_type).getD ⟨pyCapitalize alert_type.data⟩
  (alert_fragment alert_type icon title ⟨clean_content content_block⟩).data

/-- One match attempt of the alert pattern
`^>\s*\[!(NOTE|TIP|IMPORTANT|WARNING|CAUTION)\]\s*\n((?:>.*(?:\n|$))*)`
at a line-start position.  After `>` the run `\s*` is maximal (no useful
backtracking, since `[` is not whitespace); after `]` the part `\s*\n`
consumes the maximal whitespace run up to and including its last newline
(the greedy `\s*` backtracks until the next character is a newline), and
fails if the run contains none; the remaining non-newline whitespace of the
run is left for the body group, then the body group runs.  On success
returns the substitution produced by `replace_alert` and the unconsumed
rest of the input. -/
def tryAlertMatch (cs : List Char) : Option (List Char × List Char) :=
  match cs with
  | '>' :: r0 =>
    match r0.dropWhile pySpace with
    | '[' :: '!' :: r2 =>
      match tryKindWord r2 with
      | some (raw, r3) =>
        let w := r3.takeWhile pySpace
        let r4 := r3.dropWhile pySpace
        if w.contains '\n' then
          let tailWs := (w.reverse.takeWhile (fun c => !(c == '\n'))).reverse
          let p := takeBody (tailWs ++ r4)
          some (replace_alert raw p.1, p.2)
        else none
      | none => none
    | _ => none
  | _ => none

/-- Fuelled single left-to-right substitution pass of `pattern.sub` over the
text.  The flag records whether the current position is a line start (where
the multiline `^` matches: position 0 or just after a newline).  At a line
start a match attempt is made; on success its replacement is emitted and
scanning resumes after the match (every match ends just after a newline or
at the end of the input, so the next position is again a line start).
Otherwise one character is emitted.  Each step consumes at least one input
character, so fuel equal to the input length suffices
(`alertSubFuel_fuel_irrelevant` below). -/
def alertSubFuel : Nat → Bool → List Char → List Char
  | 0, _, cs => cs
  | _ + 1, _, [] => []
  | fuel + 1, lineStart, c :: cs =>
    if lineStart then
      match tryAlertMatch (c :: cs) with
      | some (r, rest) => r ++ alertSubFuel fuel true rest
      | none => c :: alertSubFuel fuel (c == '\n') cs
    else c :: alertSubFuel fuel (c == '\n') cs

/-- Whether any line-start position of the text carries a recognized alert
marker, i.e. a successful match of the alert pattern. -/
def containsAlertMarker : Bool → List Char → Bool
  | _, [] => false
  | lineStart, c :: cs =>
    (lineStart && (tryAlertMatch (c :: cs)).isSome) ||
      containsAlertMarker (c == '\n') cs

/-- The `preprocess_github_alerts` function of the source: one substitution
pass of the alert pattern over the whole Markdown text. -/
def preprocess_github_alerts (markdown_content : String) : String :=
  ⟨alertSubFuel markdown_content.data.length true markdown_content.data⟩

/-- Python `str.lower` on ASCII letters, used to model `configparser`'s
default `optionxform`, which lowercases option keys both when storing and
when looking them up (the keys the source queries are ASCII). -/
def optionxform (s : String) : String :=
  ⟨s.data.map (fun c =>
    if 65 ≤ c.toNat ∧ c.toNat ≤ 90 then Char.ofNat (c.toNat + 32) else c)⟩

/-- A parsed INI configuration source as `configparser` sees it: the
`[DEFAULT]` section is kept apart from the named sections (that is where
`configparser` routes it), and values are modelled after interpolation.
Well-formed files have no duplicate sections or options (`configparser`
raises on duplicates). -/
structure Ini where
  defaults : List (String × String)
  sections : List (String × List (String × String))

/-- Option lookup in one section's pairs, lowercasing stored keys the way
`optionxform` does. -/
def iniLookup (pairs : List (String × String)) (key : String) : Option String :=
  (pairs.find? (fun p => optionxform p.1 == key)).map (fun p => p.2)

/-- The section a name designates, as `configparser`'s `parser[name]` and
`name in parser` see it: the name `DEFAULT` always designates the defaults
(even when the file has no `[DEFAULT]` section), any other name designates
the section of that exact (case-sensitive) name when present. -/
def Ini.sectionFor (config : Ini) (name : String) : Option (List (String × String)) :=
  if name == "DEFAULT" then some config.defaults
  else (config.sections.find? (fun p => p.1 == name)).map (fun p => p.2)

/-- Model of `configparser`'s `SectionProxy.get(key, fallback)`: the section's own
value if present, otherwise the `[DEFAULT]` section's value if present,
otherwise the fallback. -/
def sectionGet (config : Ini) (pairs : List (String × String))
    (key fallback : String) : String :=
  match iniLookup pairs key with
  | some v => v
  | none =>
    match iniLookup config.defaults key with
    | some v => v
    | none => fallback

/-- The theme settings of the source's `ThemeConfig` class: the requested
theme name plus the ten display fields, every one always populated. -/
structure ThemeConfig where
  theme_name : String
  name : String
  university : String
  address : String
  email : String
  website : String
  slogan : String
  accent_color : String
  heading_line_color : String
  logo_left : String
  logo_right : String
deriving DecidableEq

/-- The built-in default values assigned at the start of
`ThemeConfig.__init__`. -/
def ThemeConfig.defaults (theme_name : String) : ThemeConfig where
  theme_name := theme_name
  name := "Institute of Electricity Economics and Energy Innovation"
  university := "Graz University of Technology"
  address := "Inffeldgasse 18, 8010 Graz, Austria"
  email := "iee@tugraz.at"
  website := "www.iee.tugraz.at"
  slogan := "SCIENCE · PASSION · TECHNOLOGY"
  accent_color := "#000000"
  heading_line_color := "#d1d9e0"
  logo_left := "Logo_IEE.png"
  logo_right := "Logo_TuGraz.png"

/-- The `_load_theme` method: if the theme name designates a section
(`theme_name in self.config`), each of the nine recognized keys overrides
its field through `SectionProxy.get`; then, since `"DEFAULT" in
self.config` always holds for `configparser`, the heading rule color is
read from the `[DEFAULT]` section with the current value as fallback. -/
def ThemeConfig.load_theme (tc : ThemeConfig) (config : Ini)
    (theme_name : String) : ThemeConfig :=
  let tc1 :=
    match config.sectionFor theme_name with
    | some sect =>
      { tc with
        name := sectionGet config sect "name" tc.name
        university := sectionGet config sect "university" tc.university
        address := sectionGet config sect "address" tc.address
        email := sectionGet config sect "email" tc.email
        website := sectionGet config sect "website" tc.website
        slogan := sectionGet config sect "slogan" tc.slogan
        accent_color := sectionGet config sect "accent_color" tc.accent_color
        logo_left := sectionGet config sect "logo_left" tc.logo_left
        logo_right := sectionGet config sect "logo_right" tc.logo_right }
    | none => tc
  { tc1 with
    heading_line_color :=
      sectionGet config config.defaults "heading_line_color" tc1.heading_line_color }

/-- Constructor `ThemeConfig.__init__`: set the built-in defaults, then, when the
configuration source path exists (`source = some config` models the parsed
file, `none` a non-existent path), read it and apply `_load_theme`. -/
def ThemeConfig.init (theme_name : String) (source : Option Ini) : ThemeConfig :=
  let tc := ThemeConfig.defaults theme_name
  match source with
  | none => tc
  | some config => tc.load_theme config theme_name

/-- CSS for GitHub-style rendering, parameterized by the heading underline color (the f-string of get_github_css in the source, with brace escapes resolved). -/
def get_github_css (heading_line_color : String) : String :=
  "\n        * \x7b box-sizing: border-box; \x7d\n        html, body \x7b margin: 0; padding: 0; background: #fff; \x7d\n        body \x7b\n            font-family: -apple-system, BlinkMacSystemFont, \"Segoe UI\", \"Noto Sans\", Helvetica, Arial, sans-serif;\n            font-size: 16px;\n            line-height: 1.5;\n            color: #1f2328;\n            padding: 20px 45px;\n            max-width: 900px;\n        \x7d\n\n        h1, h2, h3, h4, h5, h6 \x7b\n            margin-top: 24px;\n            margin-bottom: 16px;\n            font-weight: 600;\n            line-height: 1.25;\n            color: #1f2328;\n        \x7d\n        h1:first-child, h2:first-child, h3:first-child \x7b margin-top: 0; \x7d\n        h1 \x7b font-size: 2em; border-bottom: 1px solid "
    ++ heading_line_color
    ++ "; padding-bottom: 0.3em; \x7d\n        h2 \x7b font-size: 1.5em; border-bottom: 1px solid "
    ++ heading_line_color
    ++ "; padding-bottom: 0.3em; \x7d\n        h3 \x7b font-size: 1.25em; \x7d\n        h4 \x7b font-size: 1em; \x7d\n\n        p \x7b margin-top: 0; margin-bottom: 16px; \x7d\n        a \x7b color: #0969da; text-decoration: none; \x7d\n        a:hover \x7b text-decoration: underline; \x7d\n        a code \x7b color: #0969da; \x7d\n        strong \x7b font-weight: 600; \x7d\n\n        code, tt \x7b\n            font-family: ui-monospace, SFMono-Regular, \"SF Mono\", Menlo, Consolas, monospace;\n            font-size: 85%;\n            padding: 0.2em 0.4em;\n            background-color: #eff1f3;\n            border-radius: 6px;\n        \x7d\n        pre \x7b\n            font-family: ui-monospace, SFMono-Regular, \"SF Mono\", Menlo, Consolas, monospace;\n            font-size: 85%;\n            padding: 16px;\n            overflow: auto;\n            line-height: 1.45;\n            background-color: #f6f8fa;\n            border-radius: 6px;\n            margin-bottom: 16px;\n        \x7d\n        pre code \x7b padding: 0; background-color: transparent; font-size: 100%; \x7d\n\n        ul, ol \x7b padding-left: 2em; margin-bottom: 16px; \x7d\n        ul \x7b list-style-type: disc; \x7d\n        ol \x7b list-style-type: decimal; \x7d\n        li \x7b margin-top: 0.25em; \x7d\n        ul ul, ol ul \x7b list-style-type: circle; margin-top: 0; margin-bottom: 0; \x7d\n\n        blockquote \x7b\n            padding: 0 1em;\n            color: #656d76;\n            border-left: 0.25em solid #d0d7de;\n            margin: 0 0 16px 0;\n        \x7d\n\n        table \x7b border-spacing: 0; border-collapse: collapse; margin-bottom: 16px; \x7d\n        th, td \x7b padding: 6px 13px; border: 1px solid #d0d7de; \x7d\n        th \x7b font-weight: 600; background-color: #f6f8fa; \x7d\n        tr:nth-child(2n) \x7b background-color: #f6f8fa; \x7d\n\n        hr \x7b height: 0.25em; padding: 0; margin: 24px 0; background-color: #d0d7de; border: 0; \x7d\n        img \x7b max-width: 100%; \x7d\n\n        .markdown-alert \x7b\n            padding: 8px 16px;\n            margin-bottom: 16px;\n            border-left: 4px solid;\n            border-radius: 0 6px 6px 0;\n        \x7d\n        .markdown-alert > :first-child \x7b margin-top: 0; \x7d\n        .markdown-alert > :last-child \x7b margin-bottom: 0; \x7d\n        .markdown-alert-title \x7b\n            display: flex;\n            align-items: center;\n            font-weight: 600;\n            margin-bottom: 4px;\n        \x7d\n        .markdown-alert-title .octicon \x7b margin-right: 8px; \x7d\n\n        .markdown-alert-note \x7b border-color: #0969da; background-color: #ddf4ff; \x7d\n        .markdown-alert-note .markdown-alert-title \x7b color: #0969da; \x7d\n        .markdown-alert-note .octicon \x7b fill: #0969da; \x7d\n\n        .markdown-alert-tip \x7b border-color: #1a7f37; background-color: #dafbe1; \x7d\n        .markdown-alert-tip .markdown-alert-title \x7b color: #1a7f37; \x7d\n        .markdown-alert-tip .octicon \x7b fill: #1a7f37; \x7d\n\n        .markdown-alert-important \x7b border-color: #8250df; background-color: #fbefff; \x7d\n        .markdown-alert-important .markdown-alert-title \x7b color: #8250df; \x7d\n        .markdown-alert-important .octicon \x7b fill: #8250df; \x7d\n\n        .markdown-alert-warning \x7b border-color: #9a6700; background-color: #fff8c5; \x7d\n        .markdown-alert-warning .markdown-alert-title \x7b color: #9a6700; \x7d\n        .markdown-alert-warning .octicon \x7b fill: #9a6700; \x7d\n\n        .markdown-alert-caution \x7b border-color: #cf222e; background-color: #ffebe9; \x7d\n        .markdown-alert-caution .markdown-alert-title \x7b color: #cf222e; \x7d\n        .markdown-alert-caution .octicon \x7b fill: #cf222e; \x7d\n    "

/-- CSS for the IEE header and footer styling, parameterized by the accent color of the theme (the f-string of get_iee_css in the source). -/
def get_iee_css (theme : ThemeConfig) : String :=
  "\n        body \x7b padding-top: 12px; \x7d\n\n        .iee-header \x7b\n            display: flex;\n            align-items: center;\n            justify-content: space-between;\n            padding-bottom: 8px;\n            margin-bottom: 15px;\n            border-bottom: 1px solid "
    ++ theme.accent_color
    ++ ";\n        \x7d\n        .iee-header-left \x7b\n            display: flex;\n            align-items: center;\n            gap: 10px;\n        \x7d\n        .iee-header-left img \x7b\n            height: 28px;\n            width: auto;\n        \x7d\n        .iee-header-title \x7b\n            font-size: 10px;\n            line-height: 1.3;\n        \x7d\n        .iee-header-title .inst-name \x7b\n            color: "
    ++ theme.accent_color
    ++ ";\n            font-weight: 600;\n            font-size: 11px;\n        \x7d\n        .iee-header-title .univ-name \x7b\n            color: #666;\n        \x7d\n        .iee-header-right img \x7b\n            height: 26px;\n            width: auto;\n        \x7d\n\n        .iee-footer \x7b\n            margin-top: 25px;\n            padding-top: 8px;\n            border-top: 1px solid "
    ++ theme.accent_color
    ++ ";\n            font-size: 9px;\n            color: #666;\n            display: flex;\n            justify-content: space-between;\n            align-items: flex-end;\n        \x7d\n        .iee-footer-left \x7b\n            line-height: 1.5;\n        \x7d\n        .iee-footer-left .univ \x7b\n            color: "
    ++ theme.accent_color
    ++ ";\n            font-weight: 600;\n        \x7d\n        .iee-footer-left .inst \x7b\n            color: "
    ++ theme.accent_color
    ++ ";\n        \x7d\n        .iee-footer-right \x7b\n            text-align: right;\n            color: "
    ++ theme.accent_color
    ++ ";\n            font-style: italic;\n            font-size: 8px;\n        \x7d\n    "

/-- HTML for the IEE header (the f-string of get_iee_header in the source). -/
def get_iee_header (theme : ThemeConfig) (logo_left_data logo_right_data : String) : String :=
  "\n<div class=\"iee-header\">\n    <div class=\"iee-header-left\">\n        <img src=\""
    ++ logo_left_data
    ++ "\" alt=\"IEE\">\n        <div class=\"iee-header-title\">\n            <div class=\"inst-name\">"
    ++ theme.name
    ++ "</div>\n            <div class=\"univ-name\">"
    ++ theme.university
    ++ "</div>\n        </div>\n    </div>\n    <div class=\"iee-header-right\">\n        <img src=\""
    ++ logo_right_data
    ++ "\" alt=\"TU Graz\">\n    </div>\n</div>\n"

/-- HTML for the IEE footer (the f-string of get_iee_footer in the source). -/
def get_iee_footer (theme : ThemeConfig) : String :=
  "\n<div class=\"iee-footer\">\n    <div class=\"iee-footer-left\">\n        <div class=\"univ\">"
    ++ theme.university
    ++ "</div>\n        <div class=\"inst\">"
    ++ theme.name
    ++ "</div>\n        <div>"
    ++ theme.address
    ++ "</div>\n        <div>"
    ++ theme.email
    ++ " | "
    ++ theme.website
    ++ "</div>\n    </div>\n    <div class=\"iee-footer-right\">"
    ++ theme.slogan
    ++ "</div>\n</div>\n"

/-- The fixed document skeleton of create_html_document in the source: doctype, head with embedded style, body with optional header, the body fragment, and optional footer. -/
def html_template (css header body footer : String) : String :=
  "<!DOCTYPE html>\n<html lang=\"en\">\n<head>\n    <meta charset=\"UTF-8\">\n    <title>Document</title>\n    <style>"
    ++ css
    ++ "</style>\n</head>\n<body>\n"
    ++ header
    ++ "\n"
    ++ body
    ++ "\n"
    ++ footer
    ++ "\n</body>\n</html>"

/-- Python `str.lower` on ASCII letters (applied to file extensions, which
are ASCII in this program). -/
def lowerAscii (s : String) : String :=
  ⟨s.data.map (fun c =>
    if 65 ≤ c.toNat ∧ c.toNat ≤ 90 then Char.ofNat (c.toNat + 32) else c)⟩

/-- The final path component (POSIX), as `os.path.basename` and
`pathlib.PurePath.name` compute it: everything after the last `/`. -/
def pathName (p : String) : List Char :=
  (p.data.reverse.takeWhile (fun c => !(c == '/'))).reverse

/-- Model of `pathlib.PurePath.suffix`: the part of the final component from its
last dot, provided that dot is neither the first nor the last character of
the component; otherwise empty. -/
def pathSuffix (p : String) : String :=
  let name := pathName p
  if name.contains '.' then
    let afterDot := name.reverse.takeWhile (fun c => !(c == '.'))
    if 0 < afterDot.length ∧ afterDot.length + 1 < name.length then
      ⟨'.' :: afterDot.reverse⟩
    else ""
  else ""

/-- Model of `os.path.splitext(p)[0]` for POSIX paths: the path without its
extension, where an extension is the part of the final component from its
last dot, provided some earlier character of the component is not a dot. -/
def splitextRoot (p : String) : String :=
  let name := pathName p
  let dirPart := p.data.take (p.data.length - name.length)
  if name.contains '.' then
    let afterDot := name.reverse.takeWhile (fun c => !(c == '.'))
    let i := name.length - 1 - afterDot.length
    if (name.take i).any (fun c => !(c == '.')) then ⟨dirPart ++ name.take i⟩
    else p
  else p

/-- Whether a POSIX path is absolute (`pathlib.PurePath.is_absolute`). -/
def isAbsolutePath (p : String) : Bool :=
  match p.data with
  | '/' :: _ => true
  | _ => false

/-- The `/` operator of `pathlib` on POSIX paths for the shapes arising
here: join with a separator, collapsing a trailing separator of the
directory and an empty directory. -/
def joinPath (dir p : String) : String :=
  if dir.data = [] then p
  else if dir.data.getLast? = some '/' then dir ++ p
  else dir ++ "/" ++ p

/-- The base64 alphabet in encoding order. -/
def b64Alphabet : List Char :=
  "ABCDEFGHIJKLMNOPQRSTUVWXYZabcdefghijklmnopqrstuvwxyz0123456789+/".data

/-- The base64 digit for a 6-bit value. -/
def b64Char (n : Nat) : Char :=
  b64Alphabet.getD n 'A'

/-- Standard base64 of a byte sequence (`base64.b64encode`), 3 bytes at a
time with `=` padding. -/
def b64chunks : List (Fin 256) → List Char
  | [] => []
  | [a] =>
    [b64Char (a.val / 4), b64Char (a.val % 4 * 16), '=', '=']
  | [a, b] =>
    [b64Char (a.val / 4), b64Char (a.val % 4 * 16 + b.val / 16),
     b64Char (b.val % 16 * 4), '=']
  | a :: b :: c :: rest =>
    b64Char (a.val / 4) :: b64Char (a.val % 4 * 16 + b.val / 16) ::
      b64Char (b.val % 16 * 4 + c.val / 64) :: b64Char (c.val % 64) ::
      b64chunks rest

/-- Model of `base64.b64encode(data).decode("utf-8")`. -/
def base64encode (data : List (Fin 256)) : String :=
  ⟨b64chunks data⟩

/-- The `mime_types` dictionary of `load_image_as_base64`. -/
def mime_types : List (String × String) :=
  [(".png", "image/png"),
   (".jpg", "image/jpeg"),
   (".jpeg", "image/jpeg"),
   (".webp", "image/webp"),
   (".svg", "image/svg+xml")]

/-- The filesystem visible to image loading: each path is either absent
(`none`) or a readable byte string. -/
def ImageFs : Type := String → Option (List (Fin 256))

/-- The `load_image_as_base64` function of the source: resolve the path
against `script_dir` when relative; if the file does not exist, print a
warning (returned here as the second component) and yield `none`;
otherwise yield the `data:` URI with the media type derived from the
lowercased file extension (defaulting to PNG's). -/
def load_image_as_base64 (fs : ImageFs) (image_path : String)
    (script_dir : String) : Option String × List String :=
  let path := if isAbsolutePath image_path then image_path
              else joinPath script_dir image_path
  match fs path with
  | none => (none, ["Warning: Image not found: " ++ path])
  | some data =>
    let b64 := base64encode data
    let ext := lowerAscii (pathSuffix path)
    let mime := (lookupStr mime_types ext).getD "image/png"
    (some ("data:" ++ mime ++ ";base64," ++ b64), [])

/-- The `create_html_document` function of the source.  The filesystem for
logo loading is passed explicitly; the second component of the result
collects the warnings printed while loading logos.  `iee_style and theme
and script_dir` in the source is the conjunction modelled by the triple
match (a present theme object and a present path are truthy), and `if
logo_left and logo_right` coincides with both loads returning a value,
since a returned data URI is never the empty string. -/
def create_html_document (fs : ImageFs) (body : String)
    (theme : Option ThemeConfig) (iee_style : Bool)
    (script_dir : Option String) : String × List String :=
  let heading_color := match theme with
    | some t => t.heading_line_color
    | none => "#d1d9e0"
  let css := get_github_css heading_color
  match iee_style, theme, script_dir with
  | true, some t, some dir =>
    let css2 := css ++ get_iee_css t
    let logo_left := load_image_as_base64 fs t.logo_left dir
    let logo_right := load_image_as_base64 fs t.logo_right dir
    match logo_left.1, logo_right.1 with
    | some l, some r =>
      (html_template css2 (get_iee_header t l r) body (get_iee_footer t),
       logo_left.2 ++ logo_right.2)
    | _, _ =>
      (html_template css2 "" body "", logo_left.2 ++ logo_right.2)
  | _, _, _ => (html_template css "" body "", [])

/-- Model of `os.path.basename` (POSIX). -/
def basename (p : String) : String :=
  ⟨pathName p⟩

/-- The temporary HTML file name chosen by `main`:
`f"temp_{os.path.basename(input_path)}.html"`. -/
def temp_html_name (input_path : String) : String :=
  "temp_" ++ basename input_path ++ ".html"

/-- Point update of a file-existence map. -/
def setFile (fs : String → Bool) (p : String) (v : Bool) : String → Bool :=
  fun q => if q = p then v else fs q

/-- How far `convert_and_style` got before returning or raising: it
completed (having written the temporary HTML file as its last step), or it
raised after the file came into existence, or it raised before that. -/
inductive ConvertOutcome
  | okWrote
  | failWrote
  | failNoWrite
deriving DecidableEq

/-- The `main` function of the source, modelled over a file-existence map.
Effects of the external collaborators are injected as oracles: `depsOk` —
`install_dependencies` completes; `themeOk` — constructing `ThemeConfig`
(which reads the config file) completes, consulted only under `--iee`;
`conv` — how far `convert_and_style` got; `renderOk` — `print_to_pdf`
completes (in which case the output PDF exists).  The body reproduces
`main`'s order: input existence check with early exit, dependency
bootstrap, theme construction, then the `try` block (convert, then render)
whose `finally` clause removes the temporary HTML file when it exists.
Returns the final file map and whether the run succeeded. -/
def mainModel (input_path : String) (output : Option String) (iee : Bool)
    (depsOk themeOk renderOk : Bool) (conv : ConvertOutcome)
    (fs0 : String → Bool) : (String → Bool) × Bool :=
  if !(fs0 input_path) then (fs0, false)
  else if !depsOk then (fs0, false)
  else if iee && !themeOk then (fs0, false)
  else
    let output_path := output.getD (splitextRoot input_path ++ ".pdf")
    let temp_html := temp_html_name input_path
    let tryRes : (String → Bool) × Bool :=
      match conv with
      | ConvertOutcome.failNoWrite => (fs0, false)
      | ConvertOutcome.failWrote => (setFile fs0 temp_html true, false)
      | ConvertOutcome.okWrote =>
        let fs1 := setFile fs0 temp_html true
        if renderOk then (setFile fs1 output_path true, true) else (fs1, false)
    let fsFinal := if tryRes.1 temp_html then setFile tryRes.1 temp_html false
                   else tryRes.1
    (fsFinal, tryRes.2)

/-- Helper: characters of one section's pairs are irrelevant to fuel: the
substitution pass leaves an input without markers unchanged. -/
theorem alertSubFuel_no_marker :
    ∀ (fuel : Nat) (lineStart : Bool) (cs : List Char),
      cs.length ≤ fuel → containsAlertMarker lineStart cs = false →
      alertSubFuel fuel lineStart cs = cs := by
  intro fuel
  induction fuel with
  | zero =>
    intro ls cs hlen _
    cases cs with
    | nil => rfl
    | cons c cs => simp at hlen
  | succ n ih =>
    intro ls cs hlen h
    cases cs with
    | nil => rfl
    | cons c cs =>
      have h' : (ls = true → tryAlertMatch (c :: cs) = none) ∧
          containsAlertMarker (c == '\n') cs = false := by
        simpa [containsAlertMarker] using h
      obtain ⟨h1, h2⟩ := h'
      have hlen' : cs.length ≤ n := by
        simpa using Nat.le_of_succ_le_succ hlen
      cases ls with
      | false =>
        show c :: alertSubFuel n (c == '\n') cs = c :: cs
        exact congrArg (c :: ·) (ih _ _ hlen' h2)
      | true =>
        have hnone : tryAlertMatch (c :: cs) = none := h1 rfl
        show (if true then
                match tryAlertMatch (c :: cs) with
                | some (r, rest) => r ++ alertSubFuel n true rest
                | none => c :: alertSubFuel n (c == '\n') cs
              else c :: alertSubFuel n (c == '\n') cs) = c :: cs
        rw [if_pos rfl, hnone]
        exact congrArg (c :: ·) (ih _ _ hlen' h2)

/-- Helper: the body group leaves at most the input behind. -/
theorem takeBodyAux_snd_length :
    ∀ (b : Bool) (cs : List Char), (takeBodyAux b cs).2.length ≤ cs.length := by
  intro b cs
  induction cs generalizing b with
  | nil => cases b <;> simp [takeBodyAux]
  | cons c cs ih =>
    cases b with
    | false =>
      show (if c == '>' then _ else _ : List Char × List Char).2.length ≤ _
      cases h : c == '>' with
      | true => simpa using Nat.le_succ_of_le (ih true)
      | false => simp
    | true => simpa [takeBodyAux] using Nat.le_succ_of_le (ih _)

/-- Helper: matching a kind word consumes characters monotonically. -/
theorem matchWord_rest_length :
    ∀ (w cs raw rest : List Char), matchWord w cs = some (raw, rest) →
      rest.length ≤ cs.length := by
  intro w
  induction w with
  | nil =>
    intro cs raw rest h
    simp [matchWord] at h
    rw [← h.2]
  | cons p ps ih =>
    intro cs raw rest h
    cases cs with
    | nil => simp [matchWord] at h
    | cons c cs =>
      simp only [matchWord] at h
      cases hl : letterMatches p c with
      | false => rw [hl] at h; simp at h
      | true =>
        rw [hl] at h
        simp only [if_true] at h
        cases hm : matchWord ps cs with
        | none => rw [hm] at h; simp at h
        | some pr =>
          rw [hm] at h
          simp at h
          have := ih cs pr.1 pr.2 (by rw [hm])
          rw [← h.2]
          exact Nat.le_succ_of_le this

/-- Helper: a successful kind-word-plus-bracket match consumes at least one
character. -/
theorem tryKindAlt_rest_length :
    ∀ (ws : List (List Char)) (cs raw rest : List Char),
      tryKindAlt ws cs = some (raw, rest) → rest.length < cs.length := by
  intro ws
  induction ws with
  | nil => intro cs raw rest h; simp [tryKindAlt] at h
  | cons w ws ih =>
    intro cs raw rest h
    unfold tryKindAlt at h
    split at h
    next pr heq =>
      split at h
      next rest2 heq2 =>
        simp only [Option.some.injEq] at h
        have hlen : pr.2.length ≤ cs.length :=
          matchWord_rest_length w cs pr.1 pr.2 heq
        rw [heq2] at hlen
        have h2 : rest2 = rest := congrArg Prod.snd h
        rw [← h2]
        simp at hlen
        omega
      next => exact ih cs raw rest h
    next => exact ih cs raw rest h

/-- Helper: `takeWhile` and `dropWhile` split the length of a list. -/
theorem takeWhile_dropWhile_length (p : Char → Bool) (l : List Char) :
    (l.takeWhile p).length + (l.dropWhile p).length = l.length := by
  conv_rhs => rw [← List.takeWhile_append_dropWhile p l]
  rw [List.length_append]

/-- Helper: a successful alert match consumes at least one input
character, so one unit of fuel per step suffices for the whole pass. -/
theorem tryAlertMatch_rest_lt (cs r rest : List Char)
    (h : tryAlertMatch cs = some (r, rest)) : rest.length < cs.length := by
  unfold tryAlertMatch at h
  split at h
  next r0 =>
    split at h
    next r2' heq1 =>
      split at h
      next raw r3 heq2 =>
        dsimp only at h
        split at h
        next hw =>
          simp only [Option.some.injEq] at h
          have hrest : rest =
              (takeBody
                ((List.takeWhile (fun c => !c == '\n')
                    (List.takeWhile pySpace r3).reverse).reverse ++
                  List.dropWhile pySpace r3)).2 :=
            (congrArg Prod.snd h).symm
          have h1 : (takeBody
              ((List.takeWhile (fun c => !c == '\n')
                  (List.takeWhile pySpace r3).reverse).reverse ++
                List.dropWhile pySpace r3)).2.length ≤
              ((List.takeWhile (fun c => !c == '\n')
                  (List.takeWhile pySpace r3).reverse).reverse ++
                List.dropWhile pySpace r3).length :=
            takeBodyAux_snd_length false _
          rw [← hrest] at h1
          rw [List.length_append, List.length_reverse] at h1
          have hs1 := takeWhile_dropWhile_length (fun c => !c == '\n')
            (List.takeWhile pySpace r3).reverse
          have hs2 := takeWhile_dropWhile_length pySpace r3
          have hs3 := takeWhile_dropWhile_length pySpace r0
          have hrev : (List.takeWhile pySpace r3).reverse.length =
              (List.takeWhile pySpace r3).length := List.length_reverse _
          have h4 : r3.length < r2'.length :=
            tryKindAlt_rest_length kindAlternatives r2' raw r3 heq2
          have h5 : (List.dropWhile pySpace r0).length = r2'.length + 2 := by
            have := congrArg List.length heq1
            simpa using this
          simp only [List.length_cons]
          omega
        next => exact absurd h (by simp)
      next => exact absurd h (by simp)
    next => exact absurd h (by simp)
  next => exact absurd h (by simp)

/-- Helper: with fuel at least the input length the fuelled substitution
pass is independent of the fuel; in particular `preprocess_github_alerts`,
which supplies fuel equal to the input length, computes the unbounded
pass. -/
theorem alertSubFuel_fuel_irrelevant :
    ∀ (fuel fuel' : Nat) (lineStart : Bool) (cs : List Char),
      cs.length ≤ fuel → cs.length ≤ fuel' →
      alertSubFuel fuel lineStart cs = alertSubFuel fuel' lineStart cs := by
  intro fuel
  induction fuel with
  | zero =>
    intro fuel' ls cs hlen _
    have : cs = [] := List.eq_nil_of_length_eq_zero (Nat.le_zero.mp hlen)
    subst this
    cases fuel' <;> rfl
  | succ n ih =>
    intro fuel' ls cs hlen hlen'
    cases cs with
    | nil => cases fuel' <;> rfl
    | cons c cs =>
      cases fuel' with
      | zero => simp at hlen'
      | succ m =>
        show (if ls then _ else _ : List Char) = (if ls then _ else _)
        cases ls with
        | false =>
          simp only [if_neg Bool.false_ne_true]
          exact congrArg (c :: ·)
            (ih m (c == '\n') cs (Nat.le_of_succ_le_succ hlen)
              (Nat.le_of_succ_le_succ hlen'))
        | true =>
          simp only [if_pos rfl]
          cases hm : tryAlertMatch (c :: cs) with
          | none =>
            exact congrArg (c :: ·)
              (ih m (c == '\n') cs (Nat.le_of_succ_le_succ hlen)
                (Nat.le_of_succ_le_succ hlen'))
          | some pr =>
            have hlt := tryAlertMatch_rest_lt (c :: cs) pr.1 pr.2 hm
            simp only [List.length_cons] at hlt hlen hlen'
            exact congrArg (pr.1 ++ ·)
              (ih m true pr.2 (by omega) (by omega))

set_option maxRecDepth 40000
/-- C1: for every input text at none of whose line-start positions the
alert pattern matches — in particular texts whose markers are malformed or
whose kind token is outside NOTE/TIP/IMPORTANT/WARNING/CAUTION — the alert
preprocessor returns the input unchanged, byte for byte. -/
theorem preprocess_no_marker_unchanged (s : String)
    (h : containsAlertMarker true s.data = false) :
    preprocess_github_alerts s = s := by
  obtain ⟨d⟩ := s
  show String.mk (alertSubFuel d.length true d) = String.mk d
  rw [alertSubFuel_no_marker d.length true d le_rfl h]

/-- Witness for C1 at a concrete input containing a malformed marker
(missing closing bracket) and an unrecognized kind token. -/
theorem preprocess_no_marker_unchanged_witness :
    containsAlertMarker true "> [!NOTE\n> [!ALERT]\n> x\n".data = false ∧
    preprocess_github_alerts "> [!NOTE\n> [!ALERT]\n> x\n" =
      "> [!NOTE\n> [!ALERT]\n> x\n" :=
  ⟨by decide, preprocess_no_marker_unchanged _ (by decide)⟩

/-- C2: the body of a recognized alert is obtained by stripping exactly one
leading `>` (a second `>` survives) and at most one immediately following
whitespace character from each body line, rejoining with newlines and
trimming; in particular `"> [!NOTE]\n> Hello\n"` becomes a `note` fragment
with title `Note` and body `Hello`, and body lines
`"> line1\n> line2\n"` clean up to `"line1\nline2"`. -/
theorem alert_body_extraction :
    (∀ l, strip_quote ('>' :: '>' :: l) = '>' :: l) ∧
    (∀ c l, pySpace c = true → strip_quote ('>' :: c :: l) = l) ∧
    (∀ c c' l, pySpace c = true → pySpace c' = true →
      strip_quote ('>' :: c :: c' :: l) = c' :: l) ∧
    preprocess_github_alerts "> [!NOTE]\n> Hello\n" =
      alert_fragment "note" ((lookupStr ALERT_ICONS "note").getD "") "Note" "Hello" ∧
    String.mk (clean_content "> line1\n> line2\n".data) = "line1\nline2" := by
  refine ⟨fun l => ?_, fun c l hc => ?_, fun c c' l hc hc' => ?_, ?_, ?_⟩
  · rfl
  · simp [strip_quote, hc]
  · simp [strip_quote, hc]
  · decide
  · decide

/-- Witness for C2's quantified parts at concrete inputs. -/
theorem alert_body_extraction_witness :
    strip_quote ('>' :: '>' :: " a".data) = '>' :: " a".data ∧
    strip_quote ('>' :: ' ' :: "b".data) = "b".data ∧
    strip_quote ('>' :: ' ' :: '\t' :: "c".data) = '\t' :: "c".data :=
  ⟨alert_body_extraction.1 " a".data,
   alert_body_extraction.2.1 ' ' "b".data (by decide),
   alert_body_extraction.2.2.1 ' ' '\t' "c".data (by decide) (by decide)⟩

/-- Helper: inside a body line, everything up to and including the next
newline is consumed, after which scanning returns to line-start state. -/
theorem takeBodyAux_line (cs : List Char) :
    ∀ (l : List Char), '\n' ∉ l →
      takeBodyAux true (l ++ '\n' :: cs) =
        (l ++ '\n' :: (takeBodyAux false cs).1, (takeBodyAux false cs).2) := by
  intro l
  induction l with
  | nil =>
    intro _
    show takeBodyAux true ('\n' :: cs) = _
    simp [takeBodyAux]
  | cons a l ih =>
    intro h
    have ha : (a == '\n') = false := beq_eq_false_iff_ne.mpr (fun e => h (by simp [e]))
    have h' : '\n' ∉ l := fun hm => h (List.mem_cons_of_mem a hm)
    show takeBodyAux true (a :: (l ++ '\n' :: cs)) = _
    simp [takeBodyAux, ha, ih h']

/-- C3, counterexample: on `"> [!NOTE]\n\n> hi\n"` the code produces a
`note` fragment whose body is `hi` — the `>`-prefixed line after the blank
line IS part of the alert's body, the trailing whitespace of the marker
line having absorbed the blank line — and not the output the claim
predicts (an empty-bodied fragment with `"\n> hi\n"` passing through). -/
theorem alert_blank_line_cex :
    preprocess_github_alerts "> [!NOTE]\n\n> hi\n" =
      alert_fragment "note" ((lookupStr ALERT_ICONS "note").getD "") "Note" "hi" ∧
    preprocess_github_alerts "> [!NOTE]\n\n> hi\n" ≠
      alert_fragment "note" ((lookupStr ALERT_ICONS "note").getD "") "Note" ""
        ++ "\n> hi\n" := by
  constructor
  · decide
  · decide

/-- C3 amended: the body group consists of exactly the contiguous
`>`-prefixed lines at the position where it starts — it stops at the first
line not starting with `>`, including a blank line — but that position lies
after the whole whitespace run following the `[!KIND]` token, taken up to
and including its last newline; so blank lines directly after the marker
line are absorbed by the marker match, and `>`-lines beyond them do belong
to the body (third conjunct, at the counterexample input, whose body group
is `"> hi\n"`). -/
theorem alert_body_contiguity :
    (∀ cs : List Char, cs.head? ≠ some '>' → takeBody cs = ([], cs)) ∧
    (∀ (l cs : List Char), '\n' ∉ l →
      takeBody ('>' :: (l ++ '\n' :: cs)) =
        ('>' :: (l ++ '\n' :: (takeBody cs).1), (takeBody cs).2)) ∧
    tryAlertMatch "> [!NOTE]\n\n> hi\n".data =
      some (replace_alert "NOTE".data "> hi\n".data, []) := by
  refine ⟨fun cs h => ?_, fun l cs h => ?_, by decide⟩
  · cases cs with
    | nil => rfl
    | cons c cs' =>
      have hc : (c == '>') = false := by
        simp only [List.head?] at h
        exact beq_eq_false_iff_ne.mpr (fun e => h (by rw [e]))
      show takeBodyAux false (c :: cs') = _
      simp [takeBodyAux, hc]
  · show takeBodyAux false ('>' :: (l ++ '\n' :: cs)) = _
    simp [takeBody, takeBodyAux, takeBodyAux_line cs l h]

/-- Witness for C3's amended statement at concrete inputs: a blank line
stops the body group, and a `>`-line followed by a non-`>` line contributes
exactly itself. -/
theorem alert_body_contiguity_witness :
    takeBody "\nx".data = ([], "\nx".data) ∧
    takeBody ('>' :: (" a".data ++ '\n' :: "? b".data)) =
      ('>' :: (" a".data ++ '\n' :: (takeBody "? b".data).1),
       (takeBody "? b".data).2) :=
  ⟨alert_body_contiguity.1 "\nx".data (by decide),
   alert_body_contiguity.2.1 " a".data "? b".data (by decide)⟩

attribute [ext] ThemeConfig

/-- Configuration source for the C4 counterexample: no named sections, a
`[DEFAULT]` section carrying a heading rule color. -/
def c4Ini : Ini :=
  Ini.mk [("heading_line_color", "#123456")] []

/-- C4, counterexample: against an existing source whose `[DEFAULT]`
section sets `heading_line_color`, resolving a profile name whose section
is absent does NOT yield the built-in defaults: the heading rule color is
overridden. -/
theorem theme_absent_section_cex :
    c4Ini.sections.find? (fun p => p.1 == "Standard") = none ∧
    (ThemeConfig.init "Standard" (some c4Ini)).heading_line_color = "#123456" ∧
    (ThemeConfig.defaults "Standard").heading_line_color = "#d1d9e0" ∧
    ("#123456" : String) ≠ "#d1d9e0" := by
  refine ⟨rfl, by decide, rfl, by decide⟩

/-- C4 amended: theme resolution is total — the result is a fully
populated record in every case.  Against a non-existent source every field
equals its built-in default; against an existing source whose named
profile section is absent (for a name other than `DEFAULT`), every field
equals its built-in default except the heading rule color, which the
`[DEFAULT]` section may override (and which falls back to its default when
that section does not set it). -/
theorem theme_resolution_totality :
    (∀ n, ThemeConfig.init n none = ThemeConfig.defaults n) ∧
    (∀ (n : String) (config : Ini), n ≠ "DEFAULT" →
      config.sections.find? (fun p => p.1 == n) = none →
      ThemeConfig.init n (some config) =
        { ThemeConfig.defaults n with
            heading_line_color :=
              (iniLookup config.defaults "heading_line_color").getD "#d1d9e0" }) := by
  constructor
  · intro n; rfl
  · intro n config hn hf
    have hbeq : (n == "DEFAULT") = false := beq_eq_false_iff_ne.mpr hn
    have hsec : config.sectionFor n = none := by
      simp [Ini.sectionFor, hbeq, hf]
    show (ThemeConfig.defaults n).load_theme config n = _
    unfold ThemeConfig.load_theme
    rw [hsec]
    unfold sectionGet
    cases h : iniLookup config.defaults "heading_line_color" with
    | none => rfl
    | some v => rfl

/-- Witness for C4's amended statement at a concrete name and source. -/
theorem theme_resolution_totality_witness :
    ThemeConfig.init "Foo" (some (Ini.mk [] [("Bar", [("name", "N")])])) =
      { ThemeConfig.defaults "Foo" with
          heading_line_color :=
            (iniLookup (Ini.mk [] [("Bar", [("name", "N")])]).defaults
                "heading_line_color").getD "#d1d9e0" } :=
  theme_resolution_totality.2 "Foo" (Ini.mk [] [("Bar", [("name", "N")])])
    (by decide) (by decide)

/-- Configuration source for the C5 counterexample: the profile section
`Standard` exists and sets only `name`; the `[DEFAULT]` section sets
`slogan`. -/
def c5Ini : Ini :=
  Ini.mk [("slogan", "GLOBAL")] [("Standard", [("name", "Foo")])]

/-- C5, counterexample: with the profile section present, a key that is
NOT present in that section (`slogan`) still does not keep its built-in
default — the `[DEFAULT]` section's value leaks into the profile through
`configparser`'s fallback, so the global section can override more than
the heading rule color. -/
theorem theme_global_leak_cex :
    c5Ini.sectionFor "Standard" = some [("name", "Foo")] ∧
    iniLookup [("name", "Foo")] "slogan" = none ∧
    (ThemeConfig.init "Standard" (some c5Ini)).slogan = "GLOBAL" ∧
    (ThemeConfig.defaults "Standard").slogan = "SCIENCE · PASSION · TECHNOLOGY" ∧
    ("GLOBAL" : String) ≠ "SCIENCE · PASSION · TECHNOLOGY" := by
  refine ⟨rfl, rfl, by decide, rfl, by decide⟩

/-- The nine option keys `_load_theme` reads from the profile section. -/
def sectionKeys : List String :=
  ["name", "university", "address", "email", "website", "slogan",
   "accent_color", "logo_left", "logo_right"]

/-- Helper: a leading pair whose (lowercased) key differs from the looked-up
key does not affect the lookup. -/
theorem iniLookup_cons_ne (k v key : String) (sect : List (String × String))
    (h : optionxform k ≠ key) :
    iniLookup ((k, v) :: sect) key = iniLookup sect key := by
  have hb : (optionxform k == key) = false := beq_eq_false_iff_ne.mpr h
  simp [iniLookup, List.find?, hb]

/-- C5 amended: each recognized key resolves with the precedence "value in
the profile section, else value in the `[DEFAULT]` section, else built-in
default" (first three conjuncts); keys outside the recognized nine are
ignored — adding such a key to the profile section leaves resolution
unchanged (fourth conjunct). -/
theorem theme_override_precedence :
    (∀ config sect key fb v, iniLookup sect key = some v →
      sectionGet config sect key fb = v) ∧
    (∀ config sect key fb v, iniLookup sect key = none →
      iniLookup config.defaults key = some v →
      sectionGet config sect key fb = v) ∧
    (∀ config sect key fb, iniLookup sect key = none →
      iniLookup config.defaults key = none →
      sectionGet config sect key fb = fb) ∧
    (∀ (n : String) (ds sect : List (String × String)) (k v : String),
      sectionKeys.contains (optionxform k) = false →
      ThemeConfig.init n (some (Ini.mk ds [(n, (k, v) :: sect)])) =
        ThemeConfig.init n (some (Ini.mk ds [(n, sect)]))) := by
  refine ⟨?_, ?_, ?_, ?_⟩
  · intro config sect key fb v h
    unfold sectionGet
    rw [h]
  · intro config sect key fb v h h'
    unfold sectionGet
    rw [h, h']
  · intro config sect key fb h h'
    unfold sectionGet
    rw [h, h']
  · intro n ds sect k v hk
    have hxk : ∀ key : String, sectionKeys.contains key = true →
        optionxform k ≠ key := by
      intro key hkey e
      rw [e] at hk
      rw [hk] at hkey
      exact Bool.noConfusion hkey
    have hget : ∀ key fb, sectionKeys.contains key = true →
        sectionGet (Ini.mk ds [(n, (k, v) :: sect)]) ((k, v) :: sect) key fb =
          sectionGet (Ini.mk ds [(n, sect)]) sect key fb := by
      intro key fb hkey
      unfold sectionGet
      rw [iniLookup_cons_ne k v key sect (hxk key hkey)]
    by_cases hn : n = "DEFAULT"
    · subst hn
      rfl
    · have hbeq : (n == "DEFAULT") = false := beq_eq_false_iff_ne.mpr hn
      have hfind : ∀ prs : List (String × String),
          (Ini.mk ds [(n, prs)]).sectionFor n = some prs := by
        intro prs
        simp [Ini.sectionFor, hbeq]
      show (ThemeConfig.defaults n).load_theme (Ini.mk ds [(n, (k, v) :: sect)]) n =
          (ThemeConfig.defaults n).load_theme (Ini.mk ds [(n, sect)]) n
      unfold ThemeConfig.load_theme
      rw [hfind ((k, v) :: sect), hfind sect]
      apply ThemeConfig.ext
      · rfl
      · exact hget "name" _ (by decide)
      · exact hget "university" _ (by decide)
      · exact hget "address" _ (by decide)
      · exact hget "email" _ (by decide)
      · exact hget "website" _ (by decide)
      · exact hget "slogan" _ (by decide)
      · exact hget "accent_color" _ (by decide)
      · rfl
      · exact hget "logo_left" _ (by decide)
      · exact hget "logo_right" _ (by decide)

/-- Witness for C5's amended statement at concrete inputs. -/
theorem theme_override_precedence_witness :
    sectionGet (Ini.mk [] []) [("Name", "X")] "name" "d" = "X" ∧
    sectionGet (Ini.mk [("email", "E")] []) [("Name", "X")] "email" "d" = "E" ∧
    sectionGet (Ini.mk [] []) [("Name", "X")] "slogan" "d" = "d" ∧
    ThemeConfig.init "S" (some (Ini.mk [] [("S", [("font", "F"), ("name", "X")])])) =
      ThemeConfig.init "S" (some (Ini.mk [] [("S", [("name", "X")])])) :=
  ⟨theme_override_precedence.1 _ _ _ _ _ (by decide),
   theme_override_precedence.2.1 _ _ _ _ _ (by decide) (by decide),
   theme_override_precedence.2.2.1 _ _ _ _ (by decide) (by decide),
   theme_override_precedence.2.2.2 "S" [] [("name", "X")] "font" "F" (by decide)⟩

/-- Helper: when a logo fails to load, the load emits exactly the
`Image not found` warning for the resolved path. -/
theorem load_image_not_found_warning (fs : ImageFs) (p d : String)
    (h : (load_image_as_base64 fs p d).1 = none) :
    (load_image_as_base64 fs p d).2 =
      ["Warning: Image not found: " ++
        (if isAbsolutePath p then p else joinPath d p)] := by
  unfold load_image_as_base64 at h ⊢
  cases hf : fs (if isAbsolutePath p then p else joinPath d p) with
  | none => simp [hf]
  | some b => simp [hf] at h

/-- C6: with branding requested (flag set, theme and base directory
supplied) but at least one of the two logos failing to load, the assembled
document has empty header and footer fragments (they are omitted, never
partially rendered), at least one warning is surfaced, and the document
with its body is still produced. -/
theorem branding_missing_logo_omits_header_footer
    (fs : ImageFs) (body : String) (t : ThemeConfig) (dir : String)
    (h : (load_image_as_base64 fs t.logo_left dir).1 = none ∨
         (load_image_as_base64 fs t.logo_right dir).1 = none) :
    (∃ css, (create_html_document fs body (some t) true (some dir)).1 =
      html_template css "" body "") ∧
    (create_html_document fs body (some t) true (some dir)).2 ≠ [] := by
  constructor
  · refine ⟨get_github_css t.heading_line_color ++ get_iee_css t, ?_⟩
    unfold create_html_document
    rcases h with h | h
    · cases hr : (load_image_as_base64 fs t.logo_right dir).1 with
      | none => simp [h, hr]
      | some r => simp [h, hr]
    · cases hl : (load_image_as_base64 fs t.logo_left dir).1 with
      | none => simp [h, hl]
      | some l => simp [h, hl]
  · unfold create_html_document
    rcases h with h | h
    · have hw := load_image_not_found_warning fs t.logo_left dir h
      cases hr : (load_image_as_base64 fs t.logo_right dir).1 with
      | none => simp [h, hr, hw]
      | some r => simp [h, hr, hw]
    · have hw := load_image_not_found_warning fs t.logo_right dir h
      cases hl : (load_image_as_base64 fs t.logo_left dir).1 with
      | none => simp [h, hl, hw]
      | some l => simp [h, hl, hw]

/-- Witness for C6: default theme, empty filesystem (both logos absent). -/
theorem branding_missing_logo_omits_header_footer_witness :
    (∃ css, (create_html_document (fun _ => none) "<p>B</p>"
        (some (ThemeConfig.defaults "Standard")) true (some "/s")).1 =
      html_template css "" "<p>B</p>" "") ∧
    (create_html_document (fun _ => none) "<p>B</p>"
        (some (ThemeConfig.defaults "Standard")) true (some "/s")).2 ≠ [] :=
  branding_missing_logo_omits_header_footer (fun _ => none) "<p>B</p>"
    (ThemeConfig.defaults "Standard") "/s" (Or.inl rfl)

/-- C8: with the branding flag disabled the assembled document has empty
header and footer fragments and no warnings, for every theme object and
base directory supplied. -/
theorem no_branding_no_header_footer (fs : ImageFs) (body : String)
    (theme : Option ThemeConfig) (script_dir : Option String) :
    ∃ css, create_html_document fs body theme false script_dir =
      (html_template css "" body "", []) := by
  cases theme <;> cases script_dir <;> exact ⟨_, rfl⟩

/-- Helper: `String.append` concatenates the underlying character lists. -/
theorem string_data_append (a b : String) : (a ++ b).data = a.data ++ b.data := by
  cases a
  cases b
  rfl

/-- Helper: the document skeleton splits around the body fragment. -/
theorem html_template_data (css header body footer : String) :
    (html_template css header body footer).data =
      ("<!DOCTYPE html>\n<html lang=\"en\">\n<head>\n    <meta charset=\"UTF-8\">\n    <title>Document</title>\n    <style>"
          ++ css ++ "</style>\n</head>\n<body>\n" ++ header ++ "\n").data
        ++ body.data ++
        (("\n" : String) ++ footer ++ "\n</body>\n</html>").data := by
  simp [html_template, string_data_append, List.append_assoc]

/-- C9: for every body fragment, theme, branding flag, base directory and
filesystem, the assembled document contains the body fragment verbatim as a
substring — it splits as a prefix, the untouched fragment, and a suffix —
so re-extracting that substring returns the original fragment. -/
theorem document_contains_body (fs : ImageFs) (body : String)
    (theme : Option ThemeConfig) (iee_style : Bool)
    (script_dir : Option String) :
    ∃ pre post, (create_html_document fs body theme iee_style script_dir).1.data
      = pre ++ body.data ++ post := by
  cases iee_style with
  | false =>
    cases theme <;> cases script_dir <;>
      exact ⟨_, _, html_template_data _ _ _ _⟩
  | true =>
    cases theme with
    | none =>
      cases script_dir <;> exact ⟨_, _, html_template_data _ _ _ _⟩
    | some t =>
      cases script_dir with
      | none => exact ⟨_, _, html_template_data _ _ _ _⟩
      | some dir =>
        unfold create_html_document
        cases hl : (load_image_as_base64 fs t.logo_left dir).1 <;>
          cases hr : (load_image_as_base64 fs t.logo_right dir).1 <;>
          simp only [hl, hr] <;>
          exact ⟨_, _, html_template_data _ _ _ _⟩

/-- C10: with branding requested but a logo failing to load, the
branding stylesheet is still part of the embedded style — the document is
the skeleton with the GitHub CSS followed by the IEE CSS, empty header and
empty footer around the body. -/
theorem branding_css_kept_on_logo_failure
    (fs : ImageFs) (body : String) (t : ThemeConfig) (dir : String)
    (h : (load_image_as_base64 fs t.logo_left dir).1 = none ∨
         (load_image_as_base64 fs t.logo_right dir).1 = none) :
    (create_html_document fs body (some t) true (some dir)).1 =
      html_template (get_github_css t.heading_line_color ++ get_iee_css t)
        "" body "" := by
  unfold create_html_document
  rcases h with h | h
  · cases hr : (load_image_as_base64 fs t.logo_right dir).1 with
    | none => simp [h, hr]
    | some r => simp [h, hr]
  · cases hl : (load_image_as_base64 fs t.logo_left dir).1 with
    | none => simp [h, hl]
    | some l => simp [h, hl]

/-- Witness for C10: the left logo resolves, the right one is absent. -/
theorem branding_css_kept_on_logo_failure_witness :
    (create_html_document
        (fun p => if p = "/s/Logo_IEE.png" then some [] else none)
        "<h1>T</h1>" (some (ThemeConfig.defaults "Standard")) true
        (some "/s")).1 =
      html_template
        (get_github_css (ThemeConfig.defaults "Standard").heading_line_color
          ++ get_iee_css (ThemeConfig.defaults "Standard"))
        "" "<h1>T</h1>" "" :=
  branding_css_kept_on_logo_failure
    (fun p => if p = "/s/Logo_IEE.png" then some [] else none)
    "<h1>T</h1>" (ThemeConfig.defaults "Standard") "/s" (Or.inr (by decide))

/-- Helper: the `finally` clause — remove the file when it exists — leaves
a state in which the file does not exist, whatever came before. -/
theorem finally_removes (fs : String → Bool) (p : String) :
    (if fs p then setFile fs p false else fs) p = false := by
  cases h : fs p with
  | false => simp [h]
  | true => simp [h, setFile]

/-- C7: whenever a run reaches the `try` block (the input exists, the
dependency bootstrap and — under `--iee` — the theme construction
complete), the temporary HTML file does not exist once the run completes,
whichever way conversion and rendering succeed or fail; and on the exit
paths before the `try` block the filesystem is untouched, so no temporary
file written during conversion can survive any exit path. -/
theorem temp_html_cleanup (input_path : String) (output : Option String)
    (iee depsOk themeOk renderOk : Bool) (conv : ConvertOutcome)
    (fs0 : String → Bool) :
    (fs0 input_path = true → depsOk = true → (iee = true → themeOk = true) →
      (mainModel input_path output iee depsOk themeOk renderOk conv fs0).1
        (temp_html_name input_path) = false) ∧
    (fs0 input_path = false ∨ depsOk = false ∨ (iee = true ∧ themeOk = false) →
      (mainModel input_path output iee depsOk themeOk renderOk conv fs0).1
        = fs0) := by
  constructor
  · intro h1 h2 h3
    have h4 : (iee && !themeOk) = false := by
      cases hi : iee with
      | false => rfl
      | true => simp [h3 hi]
    unfold mainModel
    simp only [h1, h2, h4, Bool.not_true, Bool.not_false, if_false, if_true,
      Bool.false_eq_true, ite_false, ite_true]
    exact finally_removes _ _
  · intro h
    unfold mainModel
    rcases h with h | h | h
    · simp [h]
    · cases hf : fs0 input_path <;> simp [h, hf]
    · obtain ⟨hi, ht⟩ := h
      cases hf : fs0 input_path <;> cases hd : depsOk <;>
        simp [hi, ht, hf, hd]

/-- Witness for C7 at a concrete run that reaches the `try` block and
succeeds end to end. -/
theorem temp_html_cleanup_witness :
    (mainModel "doc.md" none false true true true ConvertOutcome.okWrote
        (fun _ => true)).1 (temp_html_name "doc.md") = false :=
  (temp_html_cleanup "doc.md" none false true true true ConvertOutcome.okWrote
      (fun _ => true)).1 rfl rfl (fun _ => rfl)
